/-
Verification of the statistical experimentation engine of the
`experimentation-agent` repository against its natural-language
specification.

The engine lives in the `tools/statistical` package:
  effect_sizes.py, confidence_intervals.py, hypothesis_testing.py,
  power_analysis.py, metrics.py.
Pure numeric functions are embedded over ℝ (exact real arithmetic models
Python float arithmetic) or ℚ where the computation is rational.
Calls into external libraries (scipy, statsmodels, numpy random) are
modelled as follows: transcendental CDFs are given by their defining
integrals, quantile-function results (`ppf`/`isf`) and solver results
(`brentq` inside `solve_power`) are passed as explicit parameters
characterised relationally, and random-number-generator output is passed
as explicit data.  Python exceptions are modelled by `Except String`.
-/
import Mathlib

open scoped Classical

namespace ABTesting

/-! ## List statistics (numpy/scipy sample statistics)

`listMean` models `np.mean`, `listVarSample` models `np.var(·, ddof=1)`,
`listStdSample` models `np.std(·, ddof=1)`, `listMedian` models
`np.median` (sort, take middle element, or mean of the two middle
elements for even length). -/

noncomputable def listMean (l : List ℝ) : ℝ := l.sum / l.length

noncomputable def listVarSample (l : List ℝ) : ℝ :=
  ((l.map (fun x => (x - listMean l) ^ 2)).sum) / ((l.length : ℝ) - 1)

noncomputable def listStdSample (l : List ℝ) : ℝ := Real.sqrt (listVarSample l)

lemma listStdSample_nonneg (l : List ℝ) : 0 ≤ listStdSample l :=
  Real.sqrt_nonneg _

noncomputable def listMedian (l : List ℝ) : ℝ :=
  let s := List.insertionSort (· ≤ ·) l
  if l.length % 2 = 1 then s.getD (l.length / 2) 0
  else (s.getD (l.length / 2 - 1) 0 + s.getD (l.length / 2) 0) / 2

/-! ## effect_sizes.py -/

structure EffectSizeResult where
  value : ℝ
  interpretation : String
  metric_name : String

/-- `_interpret_cohens_d` from effect_sizes.py. -/
noncomputable def _interpret_cohens_d (d : ℝ) : String :=
  if d < 0.2 then "negligible"
  else if d < 0.5 then "small"
  else if d < 0.8 then "medium"
  else "large"

/-- The numeric value computed by `cohens_d` (effect_sizes.py lines 41-50). -/
noncomputable def cohens_d_value (control treatment : List ℝ) (pooled : Bool) : ℝ :=
  let n1 : ℝ := control.length
  let n2 : ℝ := treatment.length
  let mean1 := listMean control
  let mean2 := listMean treatment
  let var1 := listVarSample control
  let var2 := listVarSample treatment
  if pooled then
    let pooled_var := ((n1 - 1) * var1 + (n2 - 1) * var2) / (n1 + n2 - 2)
    let pooled_std := Real.sqrt pooled_var
    if 0 < pooled_std then (mean2 - mean1) / pooled_std else 0
  else
    let std1 := Real.sqrt var1
    if 0 < std1 then (mean2 - mean1) / std1 else 0

/-- `cohens_d` from effect_sizes.py.  `d = (mean2-mean1)/s` with `s` the
pooled (or control) sample standard deviation, `0.0` when `s` is not
positive; raises when a group has fewer than 2 points. -/
noncomputable def cohens_d (control treatment : List ℝ) (pooled : Bool) :
    Except String EffectSizeResult :=
  if control.length < 2 ∨ treatment.length < 2 then
    .error "Need at least 2 data points per group"
  else
    .ok ⟨cohens_d_value control treatment pooled,
         _interpret_cohens_d |cohens_d_value control treatment pooled|,
         "Cohen\x27s d"⟩

/-- `cohens_h` from effect_sizes.py. -/
noncomputable def cohens_h (control_rate treatment_rate : ℝ) :
    Except String EffectSizeResult :=
  if ¬ (0 ≤ control_rate ∧ control_rate ≤ 1) then
    .error "control_rate must be between 0 and 1"
  else if ¬ (0 ≤ treatment_rate ∧ treatment_rate ≤ 1) then
    .error "treatment_rate must be between 0 and 1"
  else
    let phi1 := 2 * Real.arcsin (Real.sqrt control_rate)
    let phi2 := 2 * Real.arcsin (Real.sqrt treatment_rate)
    .ok ⟨phi2 - phi1, _interpret_cohens_d |phi2 - phi1|, "Cohen\x27s h"⟩

/-- `relative_lift` from effect_sizes.py. -/
noncomputable def relative_lift (control_value treatment_value : ℝ) :
    Except String EffectSizeResult :=
  if control_value = 0 then .error "control_value cannot be zero"
  else
    let lift_pct := (treatment_value - control_value) / control_value * 100
    .ok ⟨lift_pct,
      if |lift_pct| < 1 then "negligible"
      else if |lift_pct| < 5 then "small"
      else if |lift_pct| < 10 then "medium"
      else "large",
      "relative_lift_percent"⟩

/-- `absolute_difference` from effect_sizes.py (never raises). -/
noncomputable def absolute_difference (control_value treatment_value : ℝ) :
    EffectSizeResult :=
  ⟨treatment_value - control_value, "n/a", "absolute_difference"⟩

/-- Result type for `number_needed_to_treat`, over ℚ; `value = none`
models the Python `float("inf")` returned when the rates are equal. -/
structure EffectSizeResultQ where
  value : Option ℚ
  interpretation : String
  metric_name : String
deriving DecidableEq

/-- `number_needed_to_treat` from effect_sizes.py: `1/|treatment-control|`,
bucketed `≤10` very strong, `≤50` strong, `≤100` moderate, else weak;
infinity ("no effect") when the rates coincide. -/
def number_needed_to_treat (control_rate treatment_rate : ℚ) : EffectSizeResultQ :=
  let diff := |treatment_rate - control_rate|
  if diff = 0 then ⟨none, "no effect", "NNT"⟩
  else
    let nnt := 1 / diff
    ⟨some nnt,
      if nnt ≤ 10 then "very strong effect"
      else if nnt ≤ 50 then "strong effect"
      else if nnt ≤ 100 then "moderate effect"
      else "weak effect",
      "NNT"⟩

/-! ## Claim C2 -/

/-- C2 (counterexample): the claim asserts
`number_needed_to_treat(0.05, 0.055)` has interpretation
"moderate effect"; the code buckets NNT = 200 as "weak effect" because
200 > 100, so the claimed interpretation is false. -/
theorem nnt_literal_scenario_counterexample :
    (number_needed_to_treat (5 / 100) (55 / 1000)).interpretation ≠ "moderate effect" := by
  have hd : |(55 / 1000 : ℚ) - 5 / 100| = 1 / 200 := by
    rw [show (55 / 1000 : ℚ) - 5 / 100 = 1 / 200 by norm_num]
    exact abs_of_pos (by norm_num)
  simp only [number_needed_to_treat, hd]
  norm_num
  decide

/-- C2 (amended): `number_needed_to_treat(control_rate=0.05,
treatment_rate=0.055)` returns value exactly 200 = 1/|0.055-0.05| with
interpretation "weak effect", consistent with the documented thresholds
(NNT ≤ 10 very strong, ≤ 50 strong, ≤ 100 moderate, else weak, and
200 > 100). -/
theorem nnt_literal_scenario_amended :
    number_needed_to_treat (5 / 100) (55 / 1000) =
      ⟨some 200, "weak effect", "NNT"⟩ := by
  have hd : |(55 / 1000 : ℚ) - 5 / 100| = 1 / 200 := by
    rw [show (55 / 1000 : ℚ) - 5 / 100 = 1 / 200 by norm_num]
    exact abs_of_pos (by norm_num)
  simp only [number_needed_to_treat, hd]
  norm_num

/-! ## confidence_intervals.py

Critical values produced by `scipy.stats.t.ppf` / `scipy.stats.norm.ppf`
are passed as explicit parameters (`t_crit`, `z`); for a confidence level
in `(0,1)` the library returns a nonnegative value (the quantile taken is
`1 - alpha/2 > 1/2`), which the theorems record as the hypothesis
`0 ≤ t_crit` / `0 ≤ z`. -/

structure ConfidenceInterval where
  point_estimate : ℝ
  lower : ℝ
  upper : ℝ
  confidence_level : ℝ

/-- `mean_confidence_interval` from confidence_intervals.py; `std_err`
models `scipy.stats.sem` (sample std over `sqrt n`). -/
noncomputable def mean_confidence_interval (data : List ℝ) (confidence : ℝ)
    (t_crit : ℝ) : Except String ConfidenceInterval :=
  if ¬ (0 < confidence ∧ confidence < 1) then
    .error "confidence must be between 0 and 1"
  else if data.length < 2 then .error "Need at least 2 data points"
  else
    let mean := listMean data
    let std_err := listStdSample data / Real.sqrt data.length
    let margin := t_crit * std_err
    .ok ⟨mean, mean - margin, mean + margin, confidence⟩

/-- `proportion_confidence_interval` from confidence_intervals.py with the
default `method="wilson"`: the Wilson score interval exactly as computed
by `statsmodels.stats.proportion.proportion_confint`. -/
noncomputable def proportion_confidence_interval (successes total : ℤ)
    (confidence : ℝ) (z : ℝ) : Except String ConfidenceInterval :=
  if ¬ (0 < confidence ∧ confidence < 1) then
    .error "confidence must be between 0 and 1"
  else if total ≤ 0 then .error "total must be positive"
  else if successes < 0 ∨ successes > total then
    .error "successes must be between 0 and total"
  else
    let p : ℝ := (successes : ℝ) / (total : ℝ)
    let n : ℝ := (total : ℝ)
    let dist := z * Real.sqrt (p * (1 - p) / n + z ^ 2 / (4 * n ^ 2))
    let denom := 1 + z ^ 2 / n
    .ok ⟨p, (p + z ^ 2 / (2 * n) - dist) / denom,
         (p + z ^ 2 / (2 * n) + dist) / denom, confidence⟩

/-- `difference_confidence_interval_proportions` from confidence_intervals.py. -/
noncomputable def difference_confidence_interval_proportions
    (control_successes control_total treatment_successes treatment_total : ℤ)
    (confidence : ℝ) (z : ℝ) : Except String ConfidenceInterval :=
  if control_total ≤ 0 ∨ treatment_total ≤ 0 then
    .error "sample sizes must be positive"
  else
    let p1 : ℝ := (control_successes : ℝ) / (control_total : ℝ)
    let p2 : ℝ := (treatment_successes : ℝ) / (treatment_total : ℝ)
    let diff := p2 - p1
    let se := Real.sqrt (p1 * (1 - p1) / (control_total : ℝ) +
      p2 * (1 - p2) / (treatment_total : ℝ))
    let margin := z * se
    .ok ⟨diff, diff - margin, diff + margin, confidence⟩

/-- Interval result of `difference_confidence_interval_means`.  The
NamedTuple's float bounds can be IEEE `nan` (the Welch 0/0 case below),
so they are embedded as `Option ℝ` with `none` modelling `nan`; the
point estimate and confidence level are always finite. -/
structure ConfidenceIntervalFloat where
  point_estimate : ℝ
  lower : Option ℝ
  upper : Option ℝ
  confidence_level : ℝ

/-- `difference_confidence_interval_means` from confidence_intervals.py,
with the degrees-of-freedom computation of the source embedded
explicitly.  With `equal_var=False` the Welch–Satterthwaite formula
divides by `(var1/n1)²/(n1-1) + (var2/n2)²/(n2-1)`; when both sample
variances are zero this is `0.0/0.0 = nan` in the numpy arithmetic of
the source (`none` here), and the `nan` propagates through
`t.ppf(·, nan) = nan`, `margin = nan·se = nan` and both bounds, exactly
as in the code.  `t_ppf d` models `scipy.stats.t.ppf(1 - alpha/2, d)` at
a finite df `d`. -/
noncomputable def difference_confidence_interval_means
    (control treatment : List ℝ) (confidence : ℝ) (equal_var : Bool)
    (t_ppf : ℝ → ℝ) : Except String ConfidenceIntervalFloat :=
  if control.length < 2 ∨ treatment.length < 2 then
    .error "Need at least 2 data points per group"
  else
    let n1 : ℝ := control.length
    let n2 : ℝ := treatment.length
    let var1 := listVarSample control
    let var2 := listVarSample treatment
    let diff := listMean treatment - listMean control
    let se :=
      if equal_var then
        Real.sqrt (((n1 - 1) * var1 + (n2 - 1) * var2) / (n1 + n2 - 2) *
          (1 / n1 + 1 / n2))
      else
        Real.sqrt (var1 / n1 + var2 / n2)
    let df : Option ℝ :=
      if equal_var then some (n1 + n2 - 2)
      else
        if (var1 / n1) ^ 2 / (n1 - 1) + (var2 / n2) ^ 2 / (n2 - 1) = 0 then
          none
        else
          some ((var1 / n1 + var2 / n2) ^ 2 /
            ((var1 / n1) ^ 2 / (n1 - 1) + (var2 / n2) ^ 2 / (n2 - 1)))
    let margin : Option ℝ := df.map (fun d => t_ppf d * se)
    .ok ⟨diff, margin.map (fun m => diff - m), margin.map (fun m => diff + m),
      confidence⟩

lemma listVarSample_nonneg (l : List ℝ) (h : 2 ≤ l.length) :
    0 ≤ listVarSample l := by
  have hlen : (2 : ℝ) ≤ (l.length : ℝ) := by exact_mod_cast h
  refine div_nonneg ?_ (by linarith)
  refine List.sum_nonneg ?_
  intro x hx
  obtain ⟨y, _, rfl⟩ := List.mem_map.mp hx
  exact sq_nonneg _

/-- `relative_difference_confidence_interval` from confidence_intervals.py. -/
noncomputable def relative_difference_confidence_interval
    (control_successes control_total treatment_successes treatment_total : ℤ)
    (confidence : ℝ) (z : ℝ) : Except String ConfidenceInterval :=
  if control_total ≤ 0 ∨ treatment_total ≤ 0 then
    .error "sample sizes must be positive"
  else
    let p1 : ℝ := (control_successes : ℝ) / (control_total : ℝ)
    let p2 : ℝ := (treatment_successes : ℝ) / (treatment_total : ℝ)
    if p1 ≤ 0 then .error "control rate must be positive for relative lift"
    else
      let rl := (p2 - p1) / p1
      let var_p1 := p1 * (1 - p1) / (control_total : ℝ)
      let var_p2 := p2 * (1 - p2) / (treatment_total : ℝ)
      let se_lift := Real.sqrt ((1 / p1 ^ 2) * var_p2 + (p2 / p1 ^ 2) ^ 2 * var_p1)
      let margin := z * se_lift
      .ok ⟨rl, rl - margin, rl + margin, confidence⟩

/-! ### Wilson interval auxiliary inequality -/

lemma wilson_key (p z n : ℝ) (hz : 0 ≤ z) (hn : 0 < n) (hp0 : 0 ≤ p)
    (hp1 : p ≤ 1) :
    z ^ 2 * (1 - 2 * p) ≤
      2 * n * (z * Real.sqrt (p * (1 - p) / n + z ^ 2 / (4 * n ^ 2))) := by
  have hpq : 0 ≤ p * (1 - p) := mul_nonneg hp0 (by linarith)
  have hRge : (z * (1 - 2 * p) / (2 * n)) ^ 2 ≤
      p * (1 - p) / n + z ^ 2 / (4 * n ^ 2) := by
    have expand : p * (1 - p) / n + z ^ 2 / (4 * n ^ 2) -
        (z * (1 - 2 * p) / (2 * n)) ^ 2 =
        p * (1 - p) / n + z ^ 2 * (p * (1 - p)) / n ^ 2 := by
      field_simp
      ring
    have h1 : 0 ≤ p * (1 - p) / n := div_nonneg hpq hn.le
    have h2 : 0 ≤ z ^ 2 * (p * (1 - p)) / n ^ 2 :=
      div_nonneg (mul_nonneg (sq_nonneg z) hpq) (sq_nonneg n)
    linarith [expand, h1, h2]
  have habs : z * (1 - 2 * p) / (2 * n) ≤
      Real.sqrt (p * (1 - p) / n + z ^ 2 / (4 * n ^ 2)) := by
    refine le_trans (le_abs_self _) ?_
    rw [← Real.sqrt_sq_eq_abs]
    exact Real.sqrt_le_sqrt hRge
  have h2 : z * (z * (1 - 2 * p) / (2 * n)) ≤
      z * Real.sqrt (p * (1 - p) / n + z ^ 2 / (4 * n ^ 2)) :=
    mul_le_mul_of_nonneg_left habs hz
  have h2n : (0 : ℝ) ≤ 2 * n := by positivity
  calc z ^ 2 * (1 - 2 * p)
      = 2 * n * (z * (z * (1 - 2 * p) / (2 * n))) := by field_simp; ring
    _ ≤ 2 * n * (z * Real.sqrt (p * (1 - p) / n + z ^ 2 / (4 * n ^ 2))) :=
        mul_le_mul_of_nonneg_left h2 h2n

lemma wilson_lower_le (p z n : ℝ) (hz : 0 ≤ z) (hn : 0 < n) (hp0 : 0 ≤ p)
    (hp1 : p ≤ 1) :
    (p + z ^ 2 / (2 * n) -
        z * Real.sqrt (p * (1 - p) / n + z ^ 2 / (4 * n ^ 2))) /
      (1 + z ^ 2 / n) ≤ p := by
  have key := wilson_key p z n hz hn hp0 hp1
  rw [← sub_nonneg]
  have expand : p - (p + z ^ 2 / (2 * n) -
      z * Real.sqrt (p * (1 - p) / n + z ^ 2 / (4 * n ^ 2))) / (1 + z ^ 2 / n) =
      (2 * n * (z * Real.sqrt (p * (1 - p) / n + z ^ 2 / (4 * n ^ 2))) -
        z ^ 2 * (1 - 2 * p)) / (2 * (n + z ^ 2)) := by
    field_simp
    ring
  rw [expand]
  exact div_nonneg (by linarith [key]) (by positivity)

lemma wilson_le_upper (p z n : ℝ) (hz : 0 ≤ z) (hn : 0 < n) (hp0 : 0 ≤ p)
    (hp1 : p ≤ 1) :
    p ≤ (p + z ^ 2 / (2 * n) +
        z * Real.sqrt (p * (1 - p) / n + z ^ 2 / (4 * n ^ 2))) /
      (1 + z ^ 2 / n) := by
  have key := wilson_key (1 - p) z n hz hn (by linarith) (by linarith)
  rw [show (1 - p) * (1 - (1 - p)) = p * (1 - p) from by ring] at key
  rw [← sub_nonneg]
  have expand : (p + z ^ 2 / (2 * n) +
      z * Real.sqrt (p * (1 - p) / n + z ^ 2 / (4 * n ^ 2))) / (1 + z ^ 2 / n) - p =
      (2 * n * (z * Real.sqrt (p * (1 - p) / n + z ^ 2 / (4 * n ^ 2))) +
        z ^ 2 * (1 - 2 * p)) / (2 * (n + z ^ 2)) := by
    field_simp
    ring
  rw [expand]
  refine div_nonneg ?_ (by positivity)
  nlinarith [key]

/-! ## Claim C4 -/

/-- C4 (counterexample): `difference_confidence_interval_means` with the
default `equal_var=False` on two constant samples (`[1,1]` vs `[2,2]`,
`confidence=0.95` — all preconditions met): both sample variances are
zero, the Welch degrees of freedom are `0.0/0.0 = nan`, and the source
returns `nan` interval bounds (here `none`), for any value of the
external `t.ppf`.  There is no real lower/upper bound at all, so
`lower ≤ point_estimate ≤ upper` fails at this input. -/
theorem welch_nan_ci_counterexample :
    difference_confidence_interval_means [1, 1] [2, 2] (19 / 20) false
      (fun d => d) = .ok ⟨1, none, none, 19 / 20⟩ := by
  have hv1 : listVarSample [(1 : ℝ), 1] = 0 := by
    simp [listVarSample, listMean]
  have hv2 : listVarSample [(2 : ℝ), 2] = 0 := by
    simp [listVarSample, listMean]
  have hm1 : listMean [(1 : ℝ), 1] = 1 := by
    simp [listMean]
  have hm2 : listMean [(2 : ℝ), 2] = 2 := by
    simp [listMean]
  rw [difference_confidence_interval_means, if_neg (by decide)]
  simp only [hv1, hv2, hm1, hm2]
  norm_num

/-- C4 (amended): the containment `lower ≤ point_estimate ≤ upper` holds
for `mean_confidence_interval`, `proportion_confidence_interval`
(Wilson), `difference_confidence_interval_proportions` and
`relative_difference_confidence_interval` on every precondition-
satisfying input, and for `difference_confidence_interval_means` on
every such input except the Welch `nan` case: with `equal_var=False` and
both sample variances zero the degrees of freedom are `0.0/0.0 = nan`
and the returned bounds are `nan`.  Scipy critical values enter as
nonnegative parameters (`ppf` at a quantile `> 1/2`; for the t-interval,
at any positive df). -/
theorem closed_form_ci_contains_point_estimate_amended :
    (∀ (data : List ℝ) (conf t_crit : ℝ), 0 < conf → conf < 1 →
      2 ≤ data.length → 0 ≤ t_crit →
      ∃ r, mean_confidence_interval data conf t_crit = .ok r ∧
        r.lower ≤ r.point_estimate ∧ r.point_estimate ≤ r.upper) ∧
    (∀ (s n : ℤ) (conf z : ℝ), 0 < conf → conf < 1 → 0 < n → 0 ≤ s → s ≤ n →
      0 ≤ z →
      ∃ r, proportion_confidence_interval s n conf z = .ok r ∧
        r.lower ≤ r.point_estimate ∧ r.point_estimate ≤ r.upper) ∧
    (∀ (cs ct ts tt : ℤ) (conf z : ℝ), 0 < ct → 0 < tt → 0 ≤ z →
      ∃ r, difference_confidence_interval_proportions cs ct ts tt conf z = .ok r ∧
        r.lower ≤ r.point_estimate ∧ r.point_estimate ≤ r.upper) ∧
    (∀ (c t : List ℝ) (conf : ℝ) (ev : Bool) (t_ppf : ℝ → ℝ),
      2 ≤ c.length → 2 ≤ t.length → (∀ d, 0 < d → 0 ≤ t_ppf d) →
      (ev = false → ¬ (listVarSample c = 0 ∧ listVarSample t = 0)) →
      ∃ r, difference_confidence_interval_means c t conf ev t_ppf = .ok r ∧
        ∃ l u, r.lower = some l ∧ r.upper = some u ∧
          l ≤ r.point_estimate ∧ r.point_estimate ≤ u) ∧
    (∀ (cs ct ts tt : ℤ) (conf z : ℝ), 0 < ct → 0 < tt → 0 < cs → 0 ≤ z →
      ∃ r, relative_difference_confidence_interval cs ct ts tt conf z = .ok r ∧
        r.lower ≤ r.point_estimate ∧ r.point_estimate ≤ r.upper) := by
  refine ⟨?_, ?_, ?_, ?_, ?_⟩
  · intro data conf t_crit h0 h1 hlen ht
    rw [mean_confidence_interval, if_neg (not_not_intro ⟨h0, h1⟩),
      if_neg (by omega)]
    refine ⟨_, rfl, ?_, ?_⟩ <;> dsimp only <;>
      [skip; skip] <;>
      have hm : 0 ≤ t_crit * (listStdSample data / Real.sqrt data.length) :=
        mul_nonneg ht (div_nonneg (listStdSample_nonneg data) (Real.sqrt_nonneg _)) <;>
      linarith
  · intro s n conf z h0 h1 hn hs0 hsn hz
    rw [proportion_confidence_interval, if_neg (not_not_intro ⟨h0, h1⟩),
      if_neg (by omega), if_neg (by omega)]
    have hnR : (0 : ℝ) < (n : ℝ) := by exact_mod_cast hn
    have hp0 : (0 : ℝ) ≤ (s : ℝ) / (n : ℝ) :=
      div_nonneg (by exact_mod_cast hs0) hnR.le
    have hp1 : (s : ℝ) / (n : ℝ) ≤ 1 := by
      rw [div_le_one hnR]; exact_mod_cast hsn
    exact ⟨_, rfl, wilson_lower_le _ z _ hz hnR hp0 hp1,
      wilson_le_upper _ z _ hz hnR hp0 hp1⟩
  · intro cs ct ts tt conf z hct htt hz
    rw [difference_confidence_interval_proportions, if_neg (by omega)]
    refine ⟨_, rfl, ?_, ?_⟩ <;> dsimp only <;>
      have hm : 0 ≤ z * Real.sqrt
        ((cs : ℝ) / (ct : ℝ) * (1 - (cs : ℝ) / (ct : ℝ)) / (ct : ℝ) +
         (ts : ℝ) / (tt : ℝ) * (1 - (ts : ℝ) / (tt : ℝ)) / (tt : ℝ)) :=
        mul_nonneg hz (Real.sqrt_nonneg _) <;>
      linarith
  · intro c t conf ev t_ppf hc htl htp hev
    rw [difference_confidence_interval_means, if_neg (by omega)]
    have hc2 : (2 : ℝ) ≤ (c.length : ℝ) := by exact_mod_cast hc
    have ht2 : (2 : ℝ) ≤ (t.length : ℝ) := by exact_mod_cast htl
    cases ev with
    | true =>
      have hdf : (0 : ℝ) < (c.length : ℝ) + (t.length : ℝ) - 2 := by linarith
      have hm : 0 ≤ t_ppf ((c.length : ℝ) + (t.length : ℝ) - 2) *
          Real.sqrt ((((c.length : ℝ) - 1) * listVarSample c +
            ((t.length : ℝ) - 1) * listVarSample t) /
            ((c.length : ℝ) + (t.length : ℝ) - 2) *
            (1 / (c.length : ℝ) + 1 / (t.length : ℝ))) :=
        mul_nonneg (htp _ hdf) (Real.sqrt_nonneg _)
      simp only [eq_self_iff_true, if_true, Option.map_some']
      exact ⟨_, rfl, _, _, rfl, rfl, by dsimp only; linarith,
        by dsimp only; linarith⟩
    | false =>
      have h0 := hev rfl
      have hn1 : (0 : ℝ) < (c.length : ℝ) := by linarith
      have hn2 : (0 : ℝ) < (t.length : ℝ) := by linarith
      have hv1 := listVarSample_nonneg c hc
      have hv2 := listVarSample_nonneg t htl
      have hone : 0 < listVarSample c ∨ 0 < listVarSample t := by
        rcases not_and_or.mp h0 with h | h
        · exact Or.inl (lt_of_le_of_ne hv1 (Ne.symm h))
        · exact Or.inr (lt_of_le_of_ne hv2 (Ne.symm h))
      have hD : 0 < (listVarSample c / (c.length : ℝ)) ^ 2 /
          ((c.length : ℝ) - 1) +
          (listVarSample t / (t.length : ℝ)) ^ 2 / ((t.length : ℝ) - 1) := by
        rcases hone with h | h
        · exact add_pos_of_pos_of_nonneg
            (div_pos (pow_pos (div_pos h hn1) 2) (by linarith))
            (div_nonneg (sq_nonneg _) (by linarith))
        · exact add_pos_of_nonneg_of_pos
            (div_nonneg (sq_nonneg _) (by linarith))
            (div_pos (pow_pos (div_pos h hn2) 2) (by linarith))
      have hq : 0 < (listVarSample c / (c.length : ℝ) +
          listVarSample t / (t.length : ℝ)) ^ 2 /
          ((listVarSample c / (c.length : ℝ)) ^ 2 / ((c.length : ℝ) - 1) +
           (listVarSample t / (t.length : ℝ)) ^ 2 / ((t.length : ℝ) - 1)) := by
        refine div_pos (pow_pos ?_ 2) hD
        rcases hone with h | h
        · exact add_pos_of_pos_of_nonneg (div_pos h hn1)
            (div_nonneg hv2 hn2.le)
        · exact add_pos_of_nonneg_of_pos (div_nonneg hv1 hn1.le)
            (div_pos h hn2)
      have hm : 0 ≤ t_ppf ((listVarSample c / (c.length : ℝ) +
          listVarSample t / (t.length : ℝ)) ^ 2 /
          ((listVarSample c / (c.length : ℝ)) ^ 2 / ((c.length : ℝ) - 1) +
           (listVarSample t / (t.length : ℝ)) ^ 2 / ((t.length : ℝ) - 1))) *
          Real.sqrt (listVarSample c / (c.length : ℝ) +
            listVarSample t / (t.length : ℝ)) :=
        mul_nonneg (htp _ hq) (Real.sqrt_nonneg _)
      simp only [Bool.false_eq_true, if_false, if_neg (ne_of_gt hD),
        Option.map_some']
      exact ⟨_, rfl, _, _, rfl, rfl, by dsimp only; linarith,
        by dsimp only; linarith⟩
  · intro cs ct ts tt conf z hct htt hcs hz
    rw [relative_difference_confidence_interval, if_neg (by omega)]
    have hctR : (0 : ℝ) < (ct : ℝ) := by exact_mod_cast hct
    have hp1pos : (0 : ℝ) < (cs : ℝ) / (ct : ℝ) :=
      div_pos (by exact_mod_cast hcs) hctR
    rw [if_neg (not_le.mpr hp1pos)]
    refine ⟨_, rfl, ?_, ?_⟩ <;> dsimp only <;>
      have hm : 0 ≤ z * Real.sqrt
        (1 / ((cs : ℝ) / (ct : ℝ)) ^ 2 *
          ((ts : ℝ) / (tt : ℝ) * (1 - (ts : ℝ) / (tt : ℝ)) / (tt : ℝ)) +
         ((ts : ℝ) / (tt : ℝ) / ((cs : ℝ) / (ct : ℝ)) ^ 2) ^ 2 *
          ((cs : ℝ) / (ct : ℝ) * (1 - (cs : ℝ) / (ct : ℝ)) / (ct : ℝ))) :=
        mul_nonneg hz (Real.sqrt_nonneg _) <;>
      linarith

/-- C4 amended witness: each of the five interval functions evaluated at
a concrete admissible (non-`nan`) input. -/
theorem closed_form_ci_contains_point_estimate_amended_witness :
    (∃ r, mean_confidence_interval [0, 1] (1 / 2) 0 = .ok r ∧
      r.lower ≤ r.point_estimate ∧ r.point_estimate ≤ r.upper) ∧
    (∃ r, proportion_confidence_interval 1 2 (1 / 2) 0 = .ok r ∧
      r.lower ≤ r.point_estimate ∧ r.point_estimate ≤ r.upper) ∧
    (∃ r, difference_confidence_interval_proportions 1 2 1 2 (1 / 2) 0 = .ok r ∧
      r.lower ≤ r.point_estimate ∧ r.point_estimate ≤ r.upper) ∧
    (∃ r, difference_confidence_interval_means [0, 1] [0, 1] (1 / 2) false
        (fun _ => 0) = .ok r ∧
      ∃ l u, r.lower = some l ∧ r.upper = some u ∧
        l ≤ r.point_estimate ∧ r.point_estimate ≤ u) ∧
    (∃ r, relative_difference_confidence_interval 1 2 1 2 (1 / 2) 0 = .ok r ∧
      r.lower ≤ r.point_estimate ∧ r.point_estimate ≤ r.upper) := by
  have hv : listVarSample [(0 : ℝ), 1] = 1 / 2 := by
    simp [listVarSample, listMean]
    norm_num
  exact ⟨closed_form_ci_contains_point_estimate_amended.1 [0, 1] (1 / 2) 0
      (by norm_num) (by norm_num) (by decide) le_rfl,
    closed_form_ci_contains_point_estimate_amended.2.1 1 2 (1 / 2) 0
      (by norm_num) (by norm_num) (by decide) (by decide) (by decide) le_rfl,
    closed_form_ci_contains_point_estimate_amended.2.2.1 1 2 1 2 (1 / 2) 0
      (by decide) (by decide) le_rfl,
    closed_form_ci_contains_point_estimate_amended.2.2.2.1 [0, 1] [0, 1]
      (1 / 2) false (fun _ => 0) (by decide) (by decide)
      (fun _ _ => le_rfl)
      (fun _ h => by rw [hv] at h; exact absurd h.1 (by norm_num)),
    closed_form_ci_contains_point_estimate_amended.2.2.2.2 1 2 1 2 (1 / 2) 0
      (by decide) (by decide) (by decide) le_rfl⟩

/-! ## The standard normal CDF

`scipy.stats.norm.cdf`/`sf` are modelled by the mathematical standard
normal CDF `normalCdf` (the integral of the standard Gaussian density);
`norm.ppf`/`isf` results are passed as parameters. -/

noncomputable def gaussDensity (t : ℝ) : ℝ :=
  (Real.sqrt (2 * Real.pi))⁻¹ * Real.exp (-(1 / 2) * t ^ 2)

noncomputable def normalCdf (x : ℝ) : ℝ := ∫ t in Set.Iic x, gaussDensity t

lemma gaussDensity_integrable : MeasureTheory.Integrable gaussDensity := by
  have h := integrable_exp_neg_mul_sq (show (0 : ℝ) < 1 / 2 by norm_num)
  exact h.const_mul _

lemma normalCdf_sub_eq (a b : ℝ) :
    normalCdf b - normalCdf a = ∫ x in a..b, gaussDensity x :=
  intervalIntegral.integral_Iic_sub_Iic gaussDensity_integrable.integrableOn
    gaussDensity_integrable.integrableOn

lemma gaussDensity_anti (u v : ℝ) (h : u ^ 2 ≤ v ^ 2) :
    gaussDensity v ≤ gaussDensity u := by
  have hc : (0 : ℝ) ≤ (Real.sqrt (2 * Real.pi))⁻¹ :=
    inv_nonneg.mpr (Real.sqrt_nonneg _)
  exact mul_le_mul_of_nonneg_left
    (Real.exp_le_exp.mpr (by nlinarith)) hc

/-- The two-sided normal power expression `1 - Φ(c - x) + Φ(-c - x)` is
non-decreasing in the shifted effect `x` on `x ≥ 0` for a nonnegative
critical value `c`. -/
lemma gauss_tail_mono (c x₁ x₂ : ℝ) (hc : 0 ≤ c) (h0 : 0 ≤ x₁)
    (h12 : x₁ ≤ x₂) :
    (1 - normalCdf (c - x₁)) + normalCdf (-c - x₁) ≤
      (1 - normalCdf (c - x₂)) + normalCdf (-c - x₂) := by
  have intU : IntervalIntegrable (fun s => gaussDensity (c - s))
      MeasureTheory.volume x₁ x₂ := by
    simpa using
      (gaussDensity_integrable.intervalIntegrable
        (a := c - x₁) (b := c - x₂)).comp_sub_left c
  have intL : IntervalIntegrable (fun s => gaussDensity (-c - s))
      MeasureTheory.volume x₁ x₂ := by
    simpa using
      (gaussDensity_integrable.intervalIntegrable
        (a := -c - x₁) (b := -c - x₂)).comp_sub_left (-c)
  have key : (∫ s in x₁..x₂, gaussDensity (-c - s)) ≤
      ∫ s in x₁..x₂, gaussDensity (c - s) := by
    refine intervalIntegral.integral_mono_on h12 intL intU ?_
    intro s hs
    have hs0 : 0 ≤ s := le_trans h0 hs.1
    exact gaussDensity_anti (c - s) (-c - s)
      (by nlinarith [mul_nonneg hc hs0])
  have e1 : normalCdf (c - x₁) - normalCdf (c - x₂) =
      ∫ s in x₁..x₂, gaussDensity (c - s) :=
    (normalCdf_sub_eq (c - x₂) (c - x₁)).trans
      (intervalIntegral.integral_comp_sub_left gaussDensity c).symm
  have e2 : normalCdf (-c - x₁) - normalCdf (-c - x₂) =
      ∫ s in x₁..x₂, gaussDensity (-c - s) :=
    (normalCdf_sub_eq (-c - x₂) (-c - x₁)).trans
      (intervalIntegral.integral_comp_sub_left gaussDensity (-c)).symm
  linarith [key, e1, e2]

/-! ## power_analysis.py

`statsmodels.stats.power.NormalIndPower` forwards to `normal_power`,
whose two critical values `norm.isf(alpha_)` and `norm.ppf(alpha_)` are
passed here as the parameters `critU` and `critL` (for a genuine
significance level they satisfy `0 ≤ critU` and `critL = -critU`).
`solve_power` for the sample size runs `brentq`; its output is passed as
the parameter `x`, characterised as an exact root of the power equation
in the round-trip theorem. -/

inductive Alternative
  | two_sided
  | larger
  | smaller
deriving DecidableEq

/-- `statsmodels.stats.power.normal_power` (with `sigma = 1`):
`sf(critU - d·√nobs)` for the two-sided/larger branch plus
`cdf(critL - d·√nobs)` for the two-sided/smaller branch, where
`sf t = 1 - Φ t`. -/
noncomputable def normal_power (d nobs : ℝ) (alt : Alternative)
    (critU critL : ℝ) : ℝ :=
  (if alt = Alternative.smaller then 0
   else 1 - normalCdf (critU - d * Real.sqrt nobs)) +
  (if alt = Alternative.larger then 0
   else normalCdf (critL - d * Real.sqrt nobs))

/-- `NormalIndPower.power`: harmonic combination of the two group sizes
(`nobs2 = nobs1 * ratio`), then `normal_power`. -/
noncomputable def NormalIndPower_power (effect_size nobs1 ratio : ℝ)
    (alt : Alternative) (critU critL : ℝ) : ℝ :=
  normal_power effect_size (1 / (1 / nobs1 + 1 / (nobs1 * ratio))) alt critU critL

/-- `calculate_sample_size` from power_analysis.py.  The `solve_power`
(brentq) result is the parameter `x`; the function validates and returns
`ceil x`. -/
noncomputable def calculate_sample_size (baseline_rate mde power alpha ratio : ℝ)
    (alt : Alternative) (x : ℝ) : Except String ℤ :=
  if ¬ (0 < baseline_rate ∧ baseline_rate < 1) then
    .error "baseline_rate must be between 0 and 1"
  else if mde ≤ 0 then .error "mde must be positive"
  else if ¬ (0 < power ∧ power < 1) then .error "power must be between 0 and 1"
  else if ¬ (0 < alpha ∧ alpha < 1) then .error "alpha must be between 0 and 1"
  else if ¬ (0 < baseline_rate + mde ∧ baseline_rate + mde < 1) then
    .error "baseline_rate + mde must be between 0 and 1"
  else .ok ⌈x⌉

/-- The arcsine-transformed effect size used by `calculate_sample_size`
and `calculate_power`. -/
noncomputable def arcsine_effect_size (p1 p2 : ℝ) : ℝ :=
  2 * (Real.arcsin (Real.sqrt p2) - Real.arcsin (Real.sqrt p1))

/-- Postcondition of the `brentq` root-finding inside
`NormalIndPower.solve_power` when solving for `nobs1`: the returned `x`
is a positive exact root of the forward power equation at the target
`power` (the solver is modelled as exact). -/
def solve_power_sample_size_spec (baseline_rate mde power ratio : ℝ)
    (alt : Alternative) (critU critL x : ℝ) : Prop :=
  0 < x ∧
    NormalIndPower_power |arcsine_effect_size baseline_rate (baseline_rate + mde)|
      x ratio alt critU critL = power

/-- `calculate_sample_size_continuous` from power_analysis.py (the
`TTestIndPower.solve_power` result is the parameter `x`). -/
noncomputable def calculate_sample_size_continuous
    (baseline_mean baseline_std mde power alpha ratio : ℝ)
    (alt : Alternative) (x : ℝ) : Except String ℤ :=
  if baseline_std ≤ 0 then .error "baseline_std must be positive"
  else if mde ≤ 0 then .error "mde must be positive"
  else .ok ⌈x⌉

/-- `calculate_power` from power_analysis.py: validation then forward
evaluation of the normal-approximation power function at `n`. -/
noncomputable def calculate_power (n : ℤ) (baseline_rate mde alpha ratio : ℝ)
    (alt : Alternative) (critU critL : ℝ) : Except String ℝ :=
  if n ≤ 0 then .error "n must be positive"
  else if ¬ (0 < baseline_rate ∧ baseline_rate < 1) then
    .error "baseline_rate must be between 0 and 1"
  else if ¬ (0 < baseline_rate + mde ∧ baseline_rate + mde < 1) then
    .error "baseline_rate + mde must be between 0 and 1"
  else
    .ok (NormalIndPower_power
      |arcsine_effect_size baseline_rate (baseline_rate + mde)|
      (n : ℝ) ratio alt critU critL)

/-- `calculate_mde` from power_analysis.py; the `solve_power` result for
the effect size is the parameter `effect_size`. -/
noncomputable def calculate_mde (n : ℤ) (baseline_rate power alpha ratio : ℝ)
    (alt : Alternative) (effect_size : ℝ) : Except String ℝ :=
  if n ≤ 0 then .error "n must be positive"
  else if ¬ (0 < baseline_rate ∧ baseline_rate < 1) then
    .error "baseline_rate must be between 0 and 1"
  else
    let arcsin_p1 := Real.arcsin (Real.sqrt baseline_rate)
    let a2 := effect_size / 2 + arcsin_p1
    let a2c := if a2 > Real.pi / 2 then Real.pi / 2 - 0.001 else a2
    let a2cc := if a2c < 0 then 0.001 else a2c
    .ok |Real.sin a2cc ^ 2 - baseline_rate|

/-- `estimate_duration` from power_analysis.py (integer/rational
arithmetic, `ceil` of required-users over effective daily traffic). -/
def estimate_duration (sample_size_per_variant daily_traffic num_variants : ℤ)
    (traffic_allocation : ℚ) : Except String ℤ :=
  if sample_size_per_variant ≤ 0 then
    .error "sample_size_per_variant must be positive"
  else if daily_traffic ≤ 0 then .error "daily_traffic must be positive"
  else if num_variants < 2 then .error "num_variants must be at least 2"
  else if ¬ (0 < traffic_allocation ∧ traffic_allocation ≤ 1) then
    .error "traffic_allocation must be between 0 and 1"
  else
    .ok ⌈((sample_size_per_variant * num_variants : ℤ) : ℚ) /
      ((daily_traffic : ℚ) * traffic_allocation)⌉

lemma harmonic_nobs_eq (m : ℝ) (hm : 0 < m) :
    1 / (1 / m + 1 / (m * 1)) = m / 2 := by
  field_simp
  exact Or.inl (by norm_num)

/-- Monotonicity of the embedded two-sided normal power in the sample
size (the statsmodels forward power function, `ratio = 1`). -/
lemma NormalIndPower_power_mono (es critU : ℝ) (hes : 0 ≤ es)
    (hc : 0 ≤ critU) (m₁ m₂ : ℝ) (hm₁ : 0 < m₁) (hm : m₁ ≤ m₂) :
    NormalIndPower_power es m₁ 1 Alternative.two_sided critU (-critU) ≤
      NormalIndPower_power es m₂ 1 Alternative.two_sided critU (-critU) := by
  unfold NormalIndPower_power normal_power
  rw [if_neg (by decide), if_neg (by decide)]
  rw [harmonic_nobs_eq m₁ hm₁, harmonic_nobs_eq m₂ (lt_of_lt_of_le hm₁ hm)]
  have h1 : 0 ≤ es * Real.sqrt (m₁ / 2) :=
    mul_nonneg hes (Real.sqrt_nonneg _)
  have h2 : es * Real.sqrt (m₁ / 2) ≤ es * Real.sqrt (m₂ / 2) :=
    mul_le_mul_of_nonneg_left (Real.sqrt_le_sqrt (by linarith)) hes
  have := gauss_tail_mono critU (es * Real.sqrt (m₁ / 2))
    (es * Real.sqrt (m₂ / 2)) hc h1 h2
  calc (1 - normalCdf (critU - es * Real.sqrt (m₁ / 2))) +
      normalCdf (-critU - es * Real.sqrt (m₁ / 2))
      ≤ (1 - normalCdf (critU - es * Real.sqrt (m₂ / 2))) +
        normalCdf (-critU - es * Real.sqrt (m₂ / 2)) := this

/-! ## Claim C3 -/

/-- C3: the sample-size/power round trip at `baseline_rate = 0.05`,
`mde = 0.01`, `power = 0.8`, `alpha = 0.05`.  The `solve_power` call in
`calculate_sample_size` is modelled as an exact positive root `x` of the
forward power equation with value `p` (for the actual run, `p = 0.8`);
`calculate_sample_size` rounds `x` up with `ceil`, and because the
achieved power is non-decreasing in `n`, `calculate_power` at the
returned sample size is at least `p`.  The scipy critical values
satisfy `critU = isf(alpha/2) ≥ 0` and `critL = ppf(alpha/2) = -critU`. -/
theorem sample_size_power_round_trip (critU x p : ℝ) (n : ℤ)
    (hcrit : 0 ≤ critU) (hx : 0 < x)
    (hsolve : solve_power_sample_size_spec (1 / 20) (1 / 100) p 1
      Alternative.two_sided critU (-critU) x)
    (hn : calculate_sample_size (1 / 20) (1 / 100) (4 / 5) (1 / 20) 1
      Alternative.two_sided x = .ok n) :
    ∃ pw, calculate_power n (1 / 20) (1 / 100) (1 / 20) 1
        Alternative.two_sided critU (-critU) = .ok pw ∧ p ≤ pw := by
  have hceil : n = ⌈x⌉ := by
    rw [calculate_sample_size, if_neg (not_not_intro (by norm_num)),
      if_neg (by norm_num), if_neg (not_not_intro (by norm_num)),
      if_neg (not_not_intro (by norm_num)),
      if_neg (not_not_intro (by norm_num))] at hn
    exact (Except.ok.injEq _ _).mp hn.symm
  have hnpos : 0 < n := by
    rw [hceil]
    exact Int.ceil_pos.mpr hx
  rw [calculate_power, if_neg (by omega),
    if_neg (not_not_intro (by norm_num)),
    if_neg (not_not_intro (by norm_num))]
  refine ⟨_, rfl, ?_⟩
  obtain ⟨hxpos, heq⟩ := hsolve
  rw [← heq]
  refine NormalIndPower_power_mono _ critU (abs_nonneg _) hcrit x _ hx ?_
  rw [hceil]
  exact_mod_cast Int.le_ceil x

/-- C3 witness: the round-trip theorem applied at `critU = 1`, solver
output `x = 1` with its own exact power value `p`. -/
theorem sample_size_power_round_trip_witness :
    ∃ pw, calculate_power 1 (1 / 20) (1 / 100) (1 / 20) 1
        Alternative.two_sided 1 (-1) = .ok pw ∧
      NormalIndPower_power
        |arcsine_effect_size (1 / 20) (1 / 20 + 1 / 100)| 1 1
        Alternative.two_sided 1 (-1) ≤ pw := by
  refine sample_size_power_round_trip 1 1 _ 1 (by norm_num) (by norm_num)
    ⟨by norm_num, rfl⟩ ?_
  rw [calculate_sample_size, if_neg (not_not_intro (by norm_num)),
    if_neg (by norm_num), if_neg (not_not_intro (by norm_num)),
    if_neg (not_not_intro (by norm_num)),
    if_neg (not_not_intro (by norm_num))]
  norm_num

/-! ## Claim C6 -/

/-- C6 (counterexample): `calculate_power` performs no validation of
`alpha`: called with `alpha = 1.5 ∉ (0,1)` it returns a power value
(`Except.ok`) instead of raising a configuration error, refuting the
claim that every PowerAnalysis entry point validates `alpha ∈ (0,1)`. -/
theorem power_analysis_validation_counterexample :
    calculate_power 100 (1 / 2) (1 / 10) (3 / 2) 1
        Alternative.two_sided 0 0 =
      .ok (NormalIndPower_power
        |arcsine_effect_size (1 / 2) (1 / 2 + 1 / 10)|
        ((100 : ℤ) : ℝ) 1 Alternative.two_sided 0 0) := by
  rw [calculate_power, if_neg (by omega),
    if_neg (not_not_intro (by norm_num)),
    if_neg (not_not_intro (by norm_num))]

/-- C6 (amended): what each PowerAnalysis entry point actually
validates before computing. `calculate_sample_size` checks
`baseline_rate ∈ (0,1)`, `mde > 0`, `power ∈ (0,1)`, `alpha ∈ (0,1)` and
`baseline_rate + mde ∈ (0,1)`; `calculate_sample_size_continuous` checks
only `baseline_std > 0` and `mde > 0`; `calculate_power` checks only
`n > 0`, `baseline_rate ∈ (0,1)` and `baseline_rate + mde ∈ (0,1)`;
`calculate_mde` checks only `n > 0` and `baseline_rate ∈ (0,1)`;
`estimate_duration` checks positivity of its size/traffic arguments,
`num_variants ≥ 2` and `traffic_allocation ∈ (0,1]`.  Each violated
check raises (`Except.error`). -/
theorem power_analysis_validation_amended :
    (∀ (br mde pw al ratio : ℝ) (alt : Alternative) (x : ℝ),
      (¬ (0 < br ∧ br < 1) ∨ mde ≤ 0 ∨ ¬ (0 < pw ∧ pw < 1) ∨
        ¬ (0 < al ∧ al < 1) ∨ ¬ (0 < br + mde ∧ br + mde < 1)) →
      ∃ msg, calculate_sample_size br mde pw al ratio alt x = .error msg) ∧
    (∀ (bm bs mde pw al ratio : ℝ) (alt : Alternative) (x : ℝ),
      (bs ≤ 0 ∨ mde ≤ 0) →
      ∃ msg, calculate_sample_size_continuous bm bs mde pw al ratio alt x =
        .error msg) ∧
    (∀ (n : ℤ) (br mde al ratio : ℝ) (alt : Alternative) (cU cL : ℝ),
      (n ≤ 0 ∨ ¬ (0 < br ∧ br < 1) ∨ ¬ (0 < br + mde ∧ br + mde < 1)) →
      ∃ msg, calculate_power n br mde al ratio alt cU cL = .error msg) ∧
    (∀ (n : ℤ) (br pw al ratio : ℝ) (alt : Alternative) (es : ℝ),
      (n ≤ 0 ∨ ¬ (0 < br ∧ br < 1)) →
      ∃ msg, calculate_mde n br pw al ratio alt es = .error msg) ∧
    (∀ (s d nv : ℤ) (ta : ℚ),
      (s ≤ 0 ∨ d ≤ 0 ∨ nv < 2 ∨ ¬ (0 < ta ∧ ta ≤ 1)) →
      ∃ msg, estimate_duration s d nv ta = .error msg) := by
  refine ⟨?_, ?_, ?_, ?_, ?_⟩
  · intro br mde pw al ratio alt x h
    rw [calculate_sample_size]
    split
    · exact ⟨_, rfl⟩
    split
    · exact ⟨_, rfl⟩
    split
    · exact ⟨_, rfl⟩
    split
    · exact ⟨_, rfl⟩
    split
    · exact ⟨_, rfl⟩
    · next h1 h2 h3 h4 h5 => tauto
  · intro bm bs mde pw al ratio alt x h
    rw [calculate_sample_size_continuous]
    split
    · exact ⟨_, rfl⟩
    split
    · exact ⟨_, rfl⟩
    · next h1 h2 => tauto
  · intro n br mde al ratio alt cU cL h
    rw [calculate_power]
    split
    · exact ⟨_, rfl⟩
    split
    · exact ⟨_, rfl⟩
    split
    · exact ⟨_, rfl⟩
    · next h1 h2 h3 => tauto
  · intro n br pw al ratio alt es h
    rw [calculate_mde]
    split
    · exact ⟨_, rfl⟩
    split
    · exact ⟨_, rfl⟩
    · next h1 h2 => tauto
  · intro s d nv ta h
    rw [estimate_duration]
    split
    · exact ⟨_, rfl⟩
    split
    · exact ⟨_, rfl⟩
    split
    · exact ⟨_, rfl⟩
    split
    · exact ⟨_, rfl⟩
    · next h1 h2 h3 h4 => tauto

/-- C6 amended witness: each entry point applied at a concrete input
violating one of its actual checks. -/
theorem power_analysis_validation_amended_witness :
    (∃ msg, calculate_sample_size 2 (1 / 100) (4 / 5) (1 / 20) 1
      Alternative.two_sided 1 = .error msg) ∧
    (∃ msg, calculate_sample_size_continuous 10 0 (1 / 2) (4 / 5) (1 / 20) 1
      Alternative.two_sided 1 = .error msg) ∧
    (∃ msg, calculate_power 0 (1 / 2) (1 / 10) (1 / 20) 1
      Alternative.two_sided 0 0 = .error msg) ∧
    (∃ msg, calculate_mde 0 (1 / 2) (4 / 5) (1 / 20) 1
      Alternative.two_sided 1 = .error msg) ∧
    (∃ msg, estimate_duration 0 100 2 1 = .error msg) :=
  ⟨power_analysis_validation_amended.1 2 (1 / 100) (4 / 5) (1 / 20) 1
      Alternative.two_sided 1 (Or.inl (by norm_num)),
   power_analysis_validation_amended.2.1 10 0 (1 / 2) (4 / 5) (1 / 20) 1
      Alternative.two_sided 1 (Or.inl le_rfl),
   power_analysis_validation_amended.2.2.1 0 (1 / 2) (1 / 10) (1 / 20) 1
      Alternative.two_sided 0 0 (Or.inl le_rfl),
   power_analysis_validation_amended.2.2.2.1 0 (1 / 2) (4 / 5) (1 / 20) 1
      Alternative.two_sided 1 (Or.inl le_rfl),
   power_analysis_validation_amended.2.2.2.2 0 100 2 1 (Or.inl le_rfl)⟩

/-! ## hypothesis_testing.py

`StatisticalTestResult` embeds `StatisticalTestResultSchema`
(data/schemas.py).  External numeric results — `scipy.stats.ttest_ind`,
`mannwhitneyu`, `chi2_contingency`'s statistic/p-value, `t.ppf`/`norm.ppf`
critical values, numpy RNG draws and `np.percentile` — are passed as
explicit parameters; `scipy.stats.norm.cdf` is `normalCdf`.  Significance
flags are Props (`p_value < alpha`, `|effect| ≥ 0.2`), mirroring the
boolean expressions in the source. -/

structure StatisticalTestResult where
  test_type : String
  control_mean : ℝ
  treatment_mean : ℝ
  control_std : ℝ
  treatment_std : ℝ
  control_n : ℤ
  treatment_n : ℤ
  statistic : ℝ
  p_value : ℝ
  confidence_interval_lower : Option ℝ
  confidence_interval_upper : Option ℝ
  confidence_level : ℝ
  effect_size : ℝ
  relative_effect : Option ℝ
  statistically_significant : Prop
  practical_significance : Prop

/-- `two_sample_ttest` from hypothesis_testing.py.  `tstat`/`pval` are the
`scipy.stats.ttest_ind(treatment, control, ...)` outputs and `t_ppf` the
t-quantile function inside the CI helper. -/
noncomputable def two_sample_ttest (control treatment : List ℝ)
    (alpha confidence_level : ℝ) (equal_var : Bool) (alt : Alternative)
    (tstat pval : ℝ) (t_ppf : ℝ → ℝ) : Except String StatisticalTestResult :=
  if control.length < 2 ∨ treatment.length < 2 then
    .error "Need at least 2 data points per group"
  else do
    let ci ← difference_confidence_interval_means control treatment
      confidence_level equal_var t_ppf
    let d ← cohens_d control treatment true
    let lift ← if listMean control ≠ 0 then
        Except.map some (relative_lift (listMean control) (listMean treatment))
      else .ok none
    .ok { test_type := "two_sample_ttest" ++ (if equal_var then "_equal_var" else ""),
          control_mean := listMean control,
          treatment_mean := listMean treatment,
          control_std := listStdSample control,
          treatment_std := listStdSample treatment,
          control_n := control.length,
          treatment_n := treatment.length,
          statistic := tstat,
          p_value := pval,
          confidence_interval_lower := ci.lower,
          confidence_interval_upper := ci.upper,
          confidence_level := confidence_level,
          effect_size := (absolute_difference (listMean control) (listMean treatment)).value,
          relative_effect := lift.map (fun r => r.value),
          statistically_significant := pval < alpha,
          practical_significance := |d.value| ≥ 0.2 }

/-- `two_proportion_ztest` from hypothesis_testing.py.  The p-value in the
non-degenerate branch uses `normalCdf` exactly as the source uses
`scipy.stats.norm.cdf`; `z_crit` is the CI helper's `norm.ppf` value. -/
noncomputable def two_proportion_ztest
    (control_successes control_n treatment_successes treatment_n : ℤ)
    (alpha confidence_level : ℝ) (alt : Alternative) (z_crit : ℝ) :
    Except String StatisticalTestResult :=
  if control_n ≤ 0 ∨ treatment_n ≤ 0 then .error "Sample sizes must be positive"
  else if control_successes < 0 ∨ treatment_successes < 0 then
    .error "Successes cannot be negative"
  else if control_successes > control_n ∨ treatment_successes > treatment_n then
    .error "Successes cannot exceed sample size"
  else
    let p1 : ℝ := (control_successes : ℝ) / (control_n : ℝ)
    let p2 : ℝ := (treatment_successes : ℝ) / (treatment_n : ℝ)
    let pooled_p : ℝ := ((control_successes : ℝ) + (treatment_successes : ℝ)) /
      ((control_n : ℝ) + (treatment_n : ℝ))
    let pooled_se : ℝ := Real.sqrt (pooled_p * (1 - pooled_p) *
      (1 / (control_n : ℝ) + 1 / (treatment_n : ℝ)))
    let z_stat : ℝ := if pooled_se = 0 then 0 else (p2 - p1) / pooled_se
    let p_value : ℝ :=
      if pooled_se = 0 then 1
      else match alt with
        | Alternative.two_sided => 2 * (1 - normalCdf |z_stat|)
        | Alternative.larger => 1 - normalCdf z_stat
        | Alternative.smaller => normalCdf z_stat
    do
      let ci ← difference_confidence_interval_proportions control_successes
        control_n treatment_successes treatment_n confidence_level z_crit
      let h ← cohens_h p1 p2
      let lift ← if 0 < p1 then Except.map some (relative_lift p1 p2)
        else .ok none
      .ok { test_type := "two_proportion_ztest",
            control_mean := p1,
            treatment_mean := p2,
            control_std := if 0 < p1 ∧ p1 < 1 then Real.sqrt (p1 * (1 - p1)) else 0,
            treatment_std := if 0 < p2 ∧ p2 < 1 then Real.sqrt (p2 * (1 - p2)) else 0,
            control_n := control_n,
            treatment_n := treatment_n,
            statistic := z_stat,
            p_value := p_value,
            confidence_interval_lower := some ci.lower,
            confidence_interval_upper := some ci.upper,
            confidence_level := confidence_level,
            effect_size := p2 - p1,
            relative_effect := lift.map (fun r => r.value),
            statistically_significant := p_value < alpha,
            practical_significance := |h.value| ≥ 0.2 }

/-- `scipy.stats.chi2_contingency` on the 2×2 table
`[[o11, o12], [o21, o22]]`: rejects negative observed entries, rejects a
zero row/column sum (zero expected frequency), otherwise returns the
externally computed statistic and p-value. -/
noncomputable def chi2_contingency (o11 o12 o21 o22 : ℝ) (chi2 pval : ℝ) :
    Except String (ℝ × ℝ) :=
  if o11 < 0 ∨ o12 < 0 ∨ o21 < 0 ∨ o22 < 0 then
    .error "All values in observed must be nonnegative."
  else if o11 + o12 = 0 ∨ o21 + o22 = 0 ∨ o11 + o21 = 0 ∨ o12 + o22 = 0 then
    .error "The internally computed table of expected frequencies has a zero element."
  else .ok (chi2, pval)

/-- `chi_square_test` from hypothesis_testing.py: contingency table
`[[control_failures, control_successes], [treatment_failures,
treatment_successes]]` fed to `chi2_contingency`. -/
noncomputable def chi_square_test
    (control_successes control_n treatment_successes treatment_n : ℤ)
    (alpha confidence_level : ℝ) (chi2 pval z_crit : ℝ) :
    Except String StatisticalTestResult :=
  if control_n ≤ 0 ∨ treatment_n ≤ 0 then .error "Sample sizes must be positive"
  else do
    let res ← chi2_contingency ((control_n - control_successes : ℤ) : ℝ)
      (control_successes : ℝ) ((treatment_n - treatment_successes : ℤ) : ℝ)
      (treatment_successes : ℝ) chi2 pval
    let p1 : ℝ := (control_successes : ℝ) / (control_n : ℝ)
    let p2 : ℝ := (treatment_successes : ℝ) / (treatment_n : ℝ)
    let ci ← difference_confidence_interval_proportions control_successes
      control_n treatment_successes treatment_n confidence_level z_crit
    let h ← cohens_h p1 p2
    let lift ← if 0 < p1 then Except.map some (relative_lift p1 p2)
      else .ok none
    .ok { test_type := "chi_square_test",
          control_mean := p1,
          treatment_mean := p2,
          control_std := if 0 < p1 ∧ p1 < 1 then Real.sqrt (p1 * (1 - p1)) else 0,
          treatment_std := if 0 < p2 ∧ p2 < 1 then Real.sqrt (p2 * (1 - p2)) else 0,
          control_n := control_n,
          treatment_n := treatment_n,
          statistic := res.1,
          p_value := res.2,
          confidence_interval_lower := some ci.lower,
          confidence_interval_upper := some ci.upper,
          confidence_level := confidence_level,
          effect_size := p2 - p1,
          relative_effect := lift.map (fun r => r.value),
          statistically_significant := res.2 < alpha,
          practical_significance := |h.value| ≥ 0.2 }

/-- `mann_whitney_u` from hypothesis_testing.py: group medians go into
`control_mean`/`treatment_mean`, the confidence interval and the effect
fields are computed from the group means (`ustat`/`pval` are the
`scipy.stats.mannwhitneyu` outputs). -/
noncomputable def mann_whitney_u (control treatment : List ℝ)
    (alpha confidence_level : ℝ) (alt : Alternative) (ustat pval : ℝ)
    (t_ppf : ℝ → ℝ) : Except String StatisticalTestResult :=
  if control.length < 2 ∨ treatment.length < 2 then
    .error "Need at least 2 data points per group"
  else do
    let ci ← difference_confidence_interval_means control treatment
      confidence_level false t_ppf
    let d ← cohens_d control treatment true
    let lift ← if listMean control ≠ 0 then
        Except.map some (relative_lift (listMean control) (listMean treatment))
      else .ok none
    .ok { test_type := "mann_whitney_u",
          control_mean := listMedian control,
          treatment_mean := listMedian treatment,
          control_std := listStdSample control,
          treatment_std := listStdSample treatment,
          control_n := control.length,
          treatment_n := treatment.length,
          statistic := ustat,
          p_value := pval,
          confidence_interval_lower := ci.lower,
          confidence_interval_upper := ci.upper,
          confidence_level := confidence_level,
          effect_size := (absolute_difference (listMean control) (listMean treatment)).value,
          relative_effect := lift.map (fun r => r.value),
          statistically_significant := pval < alpha,
          practical_significance := |d.value| ≥ 0.2 }

/-- `bootstrap_test` from hypothesis_testing.py.  The RNG is explicit:
`perm i` is the i-th `rng.permutation(pooled)` draw, `bootC i`/`bootT i`
the i-th with-replacement resamples of each group, and `percentile`
models `np.percentile`.  The permutation null p-value is the fraction of
`|null diff| ≥ |observed diff|`; the CI is the percentile interval of the
separate bootstrap loop. -/
noncomputable def bootstrap_test (control treatment : List ℝ)
    (n_bootstrap : ℕ) (alpha confidence_level : ℝ) (statistic : String)
    (perm bootC bootT : ℕ → List ℝ) (percentile : List ℝ → ℝ → ℝ) :
    Except String StatisticalTestResult :=
  if control.length < 2 ∨ treatment.length < 2 then
    .error "Need at least 2 data points per group"
  else
    let stat_func : List ℝ → ℝ := if statistic = "mean" then listMean else listMedian
    let observed_diff := stat_func treatment - stat_func control
    let null_diffs := (List.range n_bootstrap).map
      (fun i => stat_func ((perm i).drop control.length) -
        stat_func ((perm i).take control.length))
    let p_value := ((null_diffs.map
      (fun nd => if |observed_diff| ≤ |nd| then (1 : ℝ) else 0)).sum) /
      (n_bootstrap : ℝ)
    let boot_diffs := (List.range n_bootstrap).map
      (fun i => stat_func (bootT i) - stat_func (bootC i))
    let ci_lower := percentile boot_diffs ((1 - confidence_level) / 2 * 100)
    let ci_upper := percentile boot_diffs ((1 + confidence_level) / 2 * 100)
    do
      let d ← cohens_d control treatment true
      let lift ← if listMean control ≠ 0 then
          Except.map some (relative_lift (listMean control) (listMean treatment))
        else .ok none
      .ok { test_type := "bootstrap_" ++ statistic,
            control_mean := stat_func control,
            treatment_mean := stat_func treatment,
            control_std := listStdSample control,
            treatment_std := listStdSample treatment,
            control_n := control.length,
            treatment_n := treatment.length,
            statistic := observed_diff,
            p_value := p_value,
            confidence_interval_lower := some ci_lower,
            confidence_interval_upper := some ci_upper,
            confidence_level := confidence_level,
            effect_size := observed_diff,
            relative_effect := lift.map (fun r => r.value),
            statistically_significant := p_value < alpha,
            practical_significance := |d.value| ≥ 0.2 }

/-! ### Reduction helpers for the `Except` monad -/

lemma exceptBind_ok {α β : Type} (a : α) (f : α → Except String β) :
    (Except.ok a : Except String α) >>= f = f a := rfl

lemma exceptBind_error {α β : Type} (e : String) (f : α → Except String β) :
    (Except.error e : Except String α) >>= f = .error e := rfl

lemma exceptMap_ok {α β : Type} (g : α → β) (a : α) :
    Except.map g (Except.ok a : Except String α) = .ok (g a) := rfl

/-! ## Claim C5 -/

/-- C5: each of the five hypothesis-test functions raises rather than
returning a silent default — `two_sample_ttest`, `mann_whitney_u` and
`bootstrap_test` when a group has fewer than 2 observations, and
`two_proportion_ztest` and `chi_square_test` when a supplied success
count is negative or exceeds its group total (for `chi_square_test` the
error comes from `scipy.stats.chi2_contingency`, which rejects the
negative entry of the contingency table). -/
theorem hypothesis_tests_signal_errors :
    (∀ (c t : List ℝ) (alpha conf : ℝ) (ev : Bool) (alt : Alternative)
        (tstat pval : ℝ) (t_ppf : ℝ → ℝ), c.length < 2 ∨ t.length < 2 →
      ∃ msg, two_sample_ttest c t alpha conf ev alt tstat pval t_ppf =
        .error msg) ∧
    (∀ (c t : List ℝ) (alpha conf : ℝ) (alt : Alternative)
        (ustat pval : ℝ) (t_ppf : ℝ → ℝ), c.length < 2 ∨ t.length < 2 →
      ∃ msg, mann_whitney_u c t alpha conf alt ustat pval t_ppf =
        .error msg) ∧
    (∀ (c t : List ℝ) (nb : ℕ) (alpha conf : ℝ) (stat : String)
        (perm bootC bootT : ℕ → List ℝ) (pct : List ℝ → ℝ → ℝ),
        c.length < 2 ∨ t.length < 2 →
      ∃ msg, bootstrap_test c t nb alpha conf stat perm bootC bootT pct =
        .error msg) ∧
    (∀ (cs cn ts tn : ℤ) (alpha conf : ℝ) (alt : Alternative) (z : ℝ),
        cs < 0 ∨ cs > cn ∨ ts < 0 ∨ ts > tn →
      ∃ msg, two_proportion_ztest cs cn ts tn alpha conf alt z =
        .error msg) ∧
    (∀ (cs cn ts tn : ℤ) (alpha conf : ℝ) (chi2 pval z : ℝ),
        cs < 0 ∨ cs > cn ∨ ts < 0 ∨ ts > tn →
      ∃ msg, chi_square_test cs cn ts tn alpha conf chi2 pval z =
        .error msg) := by
  refine ⟨?_, ?_, ?_, ?_, ?_⟩
  · intro c t alpha conf ev alt tstat pval t_ppf h
    rw [two_sample_ttest, if_pos h]
    exact ⟨_, rfl⟩
  · intro c t alpha conf alt ustat pval t_ppf h
    rw [mann_whitney_u, if_pos h]
    exact ⟨_, rfl⟩
  · intro c t nb alpha conf stat perm bootC bootT pct h
    rw [bootstrap_test, if_pos h]
    exact ⟨_, rfl⟩
  · intro cs cn ts tn alpha conf alt z h
    rw [two_proportion_ztest]
    split
    · exact ⟨_, rfl⟩
    split
    · exact ⟨_, rfl⟩
    split
    · exact ⟨_, rfl⟩
    · next h1 h2 h3 => tauto
  · intro cs cn ts tn alpha conf chi2 pval z h
    rw [chi_square_test]
    split
    · exact ⟨_, rfl⟩
    · next hn =>
      have hcond : ((cn - cs : ℤ) : ℝ) < 0 ∨ (cs : ℝ) < 0 ∨
          ((tn - ts : ℤ) : ℝ) < 0 ∨ (ts : ℝ) < 0 := by
        rcases h with h | h | h | h
        · exact Or.inr (Or.inl (by exact_mod_cast h))
        · exact Or.inl (by exact_mod_cast (by omega : cn - cs < 0))
        · exact Or.inr (Or.inr (Or.inr (by exact_mod_cast h)))
        · exact Or.inr (Or.inr (Or.inl
            (by exact_mod_cast (by omega : tn - ts < 0))))
      have hcc : chi2_contingency ((cn - cs : ℤ) : ℝ) (cs : ℝ)
          ((tn - ts : ℤ) : ℝ) (ts : ℝ) chi2 pval =
          .error "All values in observed must be nonnegative." := by
        rw [chi2_contingency, if_pos hcond]
      refine ⟨"All values in observed must be nonnegative.", ?_⟩
      rw [hcc]
      exact exceptBind_error _ _

/-- C5 witness: each test evaluated at a concrete invalid input. -/
theorem hypothesis_tests_signal_errors_witness :
    (∃ msg, two_sample_ttest [1] [1, 2] (1 / 20) (19 / 20) false
      Alternative.two_sided 0 0 (fun _ => 0) = .error msg) ∧
    (∃ msg, mann_whitney_u [1] [1, 2] (1 / 20) (19 / 20)
      Alternative.two_sided 0 0 (fun _ => 0) = .error msg) ∧
    (∃ msg, bootstrap_test [1] [1, 2] 10 (1 / 20) (19 / 20) "mean"
      (fun _ => []) (fun _ => []) (fun _ => []) (fun _ _ => 0) =
      .error msg) ∧
    (∃ msg, two_proportion_ztest (-1) 100 5 100 (1 / 20) (19 / 20)
      Alternative.two_sided 0 = .error msg) ∧
    (∃ msg, chi_square_test 101 100 5 100 (1 / 20) (19 / 20) 0 0 0 =
      .error msg) :=
  ⟨hypothesis_tests_signal_errors.1 [1] [1, 2] (1 / 20) (19 / 20) false
      Alternative.two_sided 0 0 (fun _ => 0) (Or.inl (by decide)),
   hypothesis_tests_signal_errors.2.1 [1] [1, 2] (1 / 20) (19 / 20)
      Alternative.two_sided 0 0 (fun _ => 0) (Or.inl (by decide)),
   hypothesis_tests_signal_errors.2.2.1 [1] [1, 2] 10 (1 / 20) (19 / 20)
      "mean" (fun _ => []) (fun _ => []) (fun _ => []) (fun _ _ => 0)
      (Or.inl (by decide)),
   hypothesis_tests_signal_errors.2.2.2.1 (-1) 100 5 100 (1 / 20) (19 / 20)
      Alternative.two_sided 0 (Or.inl (by decide)),
   hypothesis_tests_signal_errors.2.2.2.2 101 100 5 100 (1 / 20) (19 / 20)
      0 0 0 (Or.inr (Or.inl (by decide)))⟩

/-! ## Claim C1 -/

/-- C1: whenever the supplied counts are admissible and the pooled
standard error `sqrt(p̂(1-p̂)(1/n1+1/n2))` is exactly 0 (in particular at
`(0, 100, 0, 100)`), `two_proportion_ztest` returns a result — no
exception — with `statistic = 0`, `p_value = 1` and, for any genuine
significance level `alpha ≤ 1`, `statistically_significant = False`. -/
theorem ztest_degenerate_returns_neutral
    (cs cn ts tn : ℤ) (alpha conf : ℝ) (alt : Alternative) (z_crit : ℝ)
    (hcn : 0 < cn) (htn : 0 < tn) (hcs0 : 0 ≤ cs) (hcsn : cs ≤ cn)
    (hts0 : 0 ≤ ts) (htsn : ts ≤ tn) (halpha : alpha ≤ 1)
    (hse : Real.sqrt ((((cs : ℝ) + (ts : ℝ)) / ((cn : ℝ) + (tn : ℝ))) *
      (1 - ((cs : ℝ) + (ts : ℝ)) / ((cn : ℝ) + (tn : ℝ))) *
      (1 / (cn : ℝ) + 1 / (tn : ℝ))) = 0) :
    ∃ r, two_proportion_ztest cs cn ts tn alpha conf alt z_crit = .ok r ∧
      r.statistic = 0 ∧ r.p_value = 1 ∧ ¬ r.statistically_significant := by
  rw [two_proportion_ztest, if_neg (by omega), if_neg (by omega),
    if_neg (by omega)]
  have hcnR : (0 : ℝ) < (cn : ℝ) := by exact_mod_cast hcn
  have htnR : (0 : ℝ) < (tn : ℝ) := by exact_mod_cast htn
  have hp1mem : 0 ≤ (cs : ℝ) / (cn : ℝ) ∧ (cs : ℝ) / (cn : ℝ) ≤ 1 :=
    ⟨div_nonneg (by exact_mod_cast hcs0) hcnR.le,
     (div_le_one hcnR).mpr (by exact_mod_cast hcsn)⟩
  have hp2mem : 0 ≤ (ts : ℝ) / (tn : ℝ) ∧ (ts : ℝ) / (tn : ℝ) ≤ 1 :=
    ⟨div_nonneg (by exact_mod_cast hts0) htnR.le,
     (div_le_one htnR).mpr (by exact_mod_cast htsn)⟩
  obtain ⟨ci, hci⟩ : ∃ ci, difference_confidence_interval_proportions cs cn
      ts tn conf z_crit = .ok ci := by
    rw [difference_confidence_interval_proportions, if_neg (by omega)]
    exact ⟨_, rfl⟩
  obtain ⟨h, hh⟩ : ∃ h, cohens_h ((cs : ℝ) / (cn : ℝ)) ((ts : ℝ) / (tn : ℝ)) =
      .ok h := by
    rw [cohens_h, if_neg (not_not_intro hp1mem), if_neg (not_not_intro hp2mem)]
    exact ⟨_, rfl⟩
  simp only [hse, hci, hh]
  norm_num
  simp only [exceptBind_ok]
  rcases lt_or_le 0 ((cs : ℝ) / (cn : ℝ)) with hp | hp
  · rw [if_pos hp, relative_lift, if_neg (ne_of_gt hp)]
    simp only [exceptMap_ok, exceptBind_ok]
    exact ⟨_, rfl, rfl, rfl, not_lt.mpr halpha⟩
  · rw [if_neg (not_lt.mpr hp)]
    exact ⟨_, rfl, rfl, rfl, not_lt.mpr halpha⟩

/-- C1 witness: the literal call
`two_proportion_ztest(0, 100, 0, 100)` (default `alpha = 0.05`), whose
pooled standard error is `sqrt(0) = 0`. -/
theorem ztest_degenerate_returns_neutral_witness :
    ∃ r, two_proportion_ztest 0 100 0 100 (1 / 20) (19 / 20)
        Alternative.two_sided 0 = .ok r ∧
      r.statistic = 0 ∧ r.p_value = 1 ∧ ¬ r.statistically_significant := by
  refine ztest_degenerate_returns_neutral 0 100 0 100 (1 / 20) (19 / 20)
    Alternative.two_sided 0 (by decide) (by decide) le_rfl (by decide)
    le_rfl (by decide) (by norm_num) ?_
  norm_num

/-! ## Claim C8 -/

/-- Evaluation of `mann_whitney_u` on admissible samples: which result
fields carry medians and which carry mean-based effects. -/
lemma mann_whitney_u_eval
    (c t : List ℝ) (alpha conf : ℝ) (alt : Alternative)
    (ustat pval : ℝ) (t_ppf : ℝ → ℝ)
    (hc : 2 ≤ c.length) (ht : 2 ≤ t.length) :
    ∃ r, mann_whitney_u c t alpha conf alt ustat pval t_ppf = .ok r ∧
      r.control_mean = listMedian c ∧ r.treatment_mean = listMedian t ∧
      r.effect_size = listMean t - listMean c ∧
      (listMean c ≠ 0 → r.relative_effect =
        some ((listMean t - listMean c) / listMean c * 100)) ∧
      (listMean c = 0 → r.relative_effect = none) ∧
      (r.practical_significance ↔ |cohens_d_value c t true| ≥ 0.2) := by
  obtain ⟨ci, hci⟩ : ∃ ci, difference_confidence_interval_means c t conf
      false t_ppf = .ok ci := by
    rw [difference_confidence_interval_means, if_neg (by omega)]
    exact ⟨_, rfl⟩
  have hd : cohens_d c t true = .ok ⟨cohens_d_value c t true,
      _interpret_cohens_d |cohens_d_value c t true|, "Cohen\x27s d"⟩ := by
    rw [cohens_d, if_neg (by omega)]
  rw [mann_whitney_u, if_neg (by omega)]
  simp only [hci, hd, exceptBind_ok]
  rcases eq_or_ne (listMean c) 0 with h0 | h0
  · rw [if_neg (not_not_intro h0)]
    exact ⟨_, rfl, rfl, rfl, rfl, fun h => absurd h0 h, fun _ => rfl, Iff.rfl⟩
  · rw [if_pos h0, relative_lift, if_neg h0]
    simp only [exceptMap_ok, exceptBind_ok]
    exact ⟨_, rfl, rfl, rfl, rfl, fun _ => rfl, fun h => absurd h h0, Iff.rfl⟩

/-- C8: for samples with at least 2 points per group, `mann_whitney_u`
fills `control_mean`/`treatment_mean` with the group *medians*, while
`effect_size` (absolute difference), `relative_effect` (relative lift,
present exactly when the control mean is nonzero) and
`practical_significance` (Cohen's d at threshold 0.2) are computed from
the group *means*. -/
theorem mann_whitney_medians_and_mean_effects
    (c t : List ℝ) (alpha conf : ℝ) (alt : Alternative)
    (ustat pval : ℝ) (t_ppf : ℝ → ℝ)
    (hc : 2 ≤ c.length) (ht : 2 ≤ t.length) :
    ∃ r, mann_whitney_u c t alpha conf alt ustat pval t_ppf = .ok r ∧
      r.control_mean = listMedian c ∧ r.treatment_mean = listMedian t ∧
      r.effect_size = listMean t - listMean c ∧
      (listMean c ≠ 0 → r.relative_effect =
        some ((listMean t - listMean c) / listMean c * 100)) ∧
      (listMean c = 0 → r.relative_effect = none) ∧
      (r.practical_significance ↔ |cohens_d_value c t true| ≥ 0.2) :=
  mann_whitney_u_eval c t alpha conf alt ustat pval t_ppf hc ht

/-- C8 witness: concrete two-point samples. -/
theorem mann_whitney_medians_and_mean_effects_witness :
    ∃ r, mann_whitney_u [1, 3] [2, 6] (1 / 20) (19 / 20)
        Alternative.two_sided 0 0 (fun _ => 0) = .ok r ∧
      r.control_mean = listMedian [1, 3] ∧
      r.treatment_mean = listMedian [2, 6] ∧
      r.effect_size = listMean [2, 6] - listMean [1, 3] ∧
      (listMean [1, 3] ≠ 0 → r.relative_effect =
        some ((listMean [2, 6] - listMean [1, 3]) / listMean [1, 3] * 100)) ∧
      (listMean [1, 3] = 0 → r.relative_effect = none) ∧
      (r.practical_significance ↔ |cohens_d_value [1, 3] [2, 6] true| ≥ 0.2) :=
  mann_whitney_medians_and_mean_effects [1, 3] [2, 6] (1 / 20) (19 / 20)
    Alternative.two_sided 0 0 (fun _ => 0) (by decide) (by decide)

/-! ## Claim C10 -/

lemma cohens_d_value_pooled_zero (c t : List ℝ) (hc : listVarSample c = 0)
    (ht : listVarSample t = 0) : cohens_d_value c t true = 0 := by
  simp [cohens_d_value, hc, ht]

lemma cohens_d_value_unpooled_zero (c t : List ℝ)
    (hc : listVarSample c = 0) : cohens_d_value c t false = 0 := by
  simp [cohens_d_value, hc]

/-- C10: on zero-variance data `cohens_d` returns 0.0/"negligible"
instead of dividing by zero (pooled: both sample variances zero, i.e.
pooled standard deviation zero; unpooled: control sample variance zero),
and consequently `two_sample_ttest`, `mann_whitney_u` and
`bootstrap_test` — the tests deriving `practical_significance` from
Cohen's d — report `practical_significance = False` there. -/
theorem cohens_d_zero_variance_safe :
    (∀ c t : List ℝ, 2 ≤ c.length → 2 ≤ t.length → listVarSample c = 0 →
      listVarSample t = 0 →
      cohens_d c t true = .ok ⟨0, "negligible", "Cohen\x27s d"⟩) ∧
    (∀ c t : List ℝ, 2 ≤ c.length → 2 ≤ t.length → listVarSample c = 0 →
      cohens_d c t false = .ok ⟨0, "negligible", "Cohen\x27s d"⟩) ∧
    (∀ (c t : List ℝ) (alpha conf : ℝ) (ev : Bool) (alt : Alternative)
        (tstat pval : ℝ) (t_ppf : ℝ → ℝ), 2 ≤ c.length → 2 ≤ t.length →
        listVarSample c = 0 → listVarSample t = 0 →
      ∃ r, two_sample_ttest c t alpha conf ev alt tstat pval t_ppf = .ok r ∧
        ¬ r.practical_significance) ∧
    (∀ (c t : List ℝ) (alpha conf : ℝ) (alt : Alternative)
        (ustat pval : ℝ) (t_ppf : ℝ → ℝ), 2 ≤ c.length → 2 ≤ t.length →
        listVarSample c = 0 → listVarSample t = 0 →
      ∃ r, mann_whitney_u c t alpha conf alt ustat pval t_ppf = .ok r ∧
        ¬ r.practical_significance) ∧
    (∀ (c t : List ℝ) (nb : ℕ) (alpha conf : ℝ) (stat : String)
        (perm bootC bootT : ℕ → List ℝ) (pct : List ℝ → ℝ → ℝ),
        2 ≤ c.length → 2 ≤ t.length →
        listVarSample c = 0 → listVarSample t = 0 →
      ∃ r, bootstrap_test c t nb alpha conf stat perm bootC bootT pct = .ok r ∧
        ¬ r.practical_significance) := by
  have hnp : ∀ c t : List ℝ, listVarSample c = 0 → listVarSample t = 0 →
      ¬ (|cohens_d_value c t true| ≥ (0.2 : ℝ)) := by
    intro c t hc ht
    rw [cohens_d_value_pooled_zero c t hc ht, abs_zero]
    norm_num
  refine ⟨?_, ?_, ?_, ?_, ?_⟩
  · intro c t hc ht hvc hvt
    rw [cohens_d, if_neg (by omega), cohens_d_value_pooled_zero c t hvc hvt,
      abs_zero]
    norm_num [_interpret_cohens_d]
  · intro c t hc ht hvc
    rw [cohens_d, if_neg (by omega), cohens_d_value_unpooled_zero c t hvc,
      abs_zero]
    norm_num [_interpret_cohens_d]
  · intro c t alpha conf ev alt tstat pval t_ppf hc ht hvc hvt
    obtain ⟨ci, hci⟩ : ∃ ci, difference_confidence_interval_means c t conf
        ev t_ppf = .ok ci := by
      rw [difference_confidence_interval_means, if_neg (by omega)]
      exact ⟨_, rfl⟩
    have hd : cohens_d c t true = .ok ⟨cohens_d_value c t true,
        _interpret_cohens_d |cohens_d_value c t true|, "Cohen\x27s d"⟩ := by
      rw [cohens_d, if_neg (by omega)]
    rw [two_sample_ttest, if_neg (by omega)]
    simp only [hci, hd, exceptBind_ok]
    rcases eq_or_ne (listMean c) 0 with h0 | h0
    · rw [if_neg (not_not_intro h0)]
      exact ⟨_, rfl, hnp c t hvc hvt⟩
    · rw [if_pos h0, relative_lift, if_neg h0]
      simp only [exceptMap_ok, exceptBind_ok]
      exact ⟨_, rfl, hnp c t hvc hvt⟩
  · intro c t alpha conf alt ustat pval t_ppf hc ht hvc hvt
    obtain ⟨r, hr, _, _, _, _, _, hpr⟩ :=
      mann_whitney_u_eval c t alpha conf alt ustat pval t_ppf hc ht
    exact ⟨r, hr, fun hp => hnp c t hvc hvt (hpr.mp hp)⟩
  · intro c t nb alpha conf stat perm bootC bootT pct hc ht hvc hvt
    have hd : cohens_d c t true = .ok ⟨cohens_d_value c t true,
        _interpret_cohens_d |cohens_d_value c t true|, "Cohen\x27s d"⟩ := by
      rw [cohens_d, if_neg (by omega)]
    rw [bootstrap_test, if_neg (by omega)]
    simp only [hd, exceptBind_ok]
    rcases eq_or_ne (listMean c) 0 with h0 | h0
    · rw [if_neg (not_not_intro h0)]
      exact ⟨_, rfl, hnp c t hvc hvt⟩
    · rw [if_pos h0, relative_lift, if_neg h0]
      simp only [exceptMap_ok, exceptBind_ok]
      exact ⟨_, rfl, hnp c t hvc hvt⟩

/-- C10 witness: the constant samples `[1, 1]` and `[2, 2]`. -/
theorem cohens_d_zero_variance_safe_witness :
    cohens_d [1, 1] [2, 2] true = .ok ⟨0, "negligible", "Cohen\x27s d"⟩ ∧
    cohens_d [1, 1] [2, 2] false = .ok ⟨0, "negligible", "Cohen\x27s d"⟩ ∧
    (∃ r, two_sample_ttest [1, 1] [2, 2] (1 / 20) (19 / 20) false
        Alternative.two_sided 0 0 (fun _ => 0) = .ok r ∧
      ¬ r.practical_significance) ∧
    (∃ r, mann_whitney_u [1, 1] [2, 2] (1 / 20) (19 / 20)
        Alternative.two_sided 0 0 (fun _ => 0) = .ok r ∧
      ¬ r.practical_significance) ∧
    (∃ r, bootstrap_test [1, 1] [2, 2] 4 (1 / 20) (19 / 20) "mean"
        (fun _ => [1, 1, 2, 2]) (fun _ => [1, 1]) (fun _ => [2, 2])
        (fun _ _ => 0) = .ok r ∧ ¬ r.practical_significance) := by
  have hv1 : listVarSample [(1 : ℝ), 1] = 0 := by
    simp [listVarSample, listMean]
  have hv2 : listVarSample [(2 : ℝ), 2] = 0 := by
    simp [listVarSample, listMean]
  exact ⟨cohens_d_zero_variance_safe.1 [1, 1] [2, 2] (by decide) (by decide)
      hv1 hv2,
    cohens_d_zero_variance_safe.2.1 [1, 1] [2, 2] (by decide) (by decide) hv1,
    cohens_d_zero_variance_safe.2.2.1 [1, 1] [2, 2] (1 / 20) (19 / 20) false
      Alternative.two_sided 0 0 (fun _ => 0) (by decide) (by decide) hv1 hv2,
    cohens_d_zero_variance_safe.2.2.2.1 [1, 1] [2, 2] (1 / 20) (19 / 20)
      Alternative.two_sided 0 0 (fun _ => 0) (by decide) (by decide) hv1 hv2,
    cohens_d_zero_variance_safe.2.2.2.2 [1, 1] [2, 2] 4 (1 / 20) (19 / 20)
      "mean" (fun _ => [1, 1, 2, 2]) (fun _ => [1, 1]) (fun _ => [2, 2])
      (fun _ _ => 0) (by decide) (by decide) hv1 hv2⟩

/-! ## metrics.py

Events tables are embedded as a column list plus typed rows (an `Option`
field value `none` models a pandas null / missing value).  The
`scipy.stats.chisquare` p-value inside SRM detection is passed as a
parameter, and Python float formatting (`{:.1%}`, `{:.4f}`) is passed as
opaque formatter functions. -/

structure EventRow where
  user_id : Option String
  variant_name : Option String
  event_type : Option String
  event_timestamp : Option ℚ

structure EventsTable where
  columns : List String
  rows : List EventRow

structure SRMResult where
  is_srm_detected : Prop
  p_value : ℝ
  expected_ratio : ℝ
  observed_ratio : ℝ
  control_n : ℤ
  treatment_n : ℤ
  message : String

/-- `detect_sample_ratio_mismatch` from metrics.py.  `pval` is the
`scipy.stats.chisquare` p-value of observed `(control_n, treatment_n)`
against expected `(total·ratio, total·(1-ratio))`; `fmtPct` models the
Python `{:.1%}` formatting used only in the message text. -/
noncomputable def detect_sample_ratio_mismatch (control_n treatment_n : ℤ)
    (expected_ratio alpha : ℝ) (pval : ℝ) (fmtPct : ℝ → String) : SRMResult :=
  if control_n + treatment_n = 0 then
    ⟨False, 1, expected_ratio, 0, control_n, treatment_n,
      "No samples to analyze"⟩
  else
    let observed_ratio : ℝ :=
      (control_n : ℝ) / ((control_n : ℝ) + (treatment_n : ℝ))
    let message :=
      if pval < alpha then
        "SRM DETECTED: Expected " ++ fmtPct expected_ratio ++ "/" ++
          fmtPct (1 - expected_ratio) ++ " split, observed " ++
          fmtPct observed_ratio ++ "/" ++ fmtPct (1 - observed_ratio) ++
          ". This may indicate randomization or data collection issues."
      else
        "No SRM detected. Observed split (" ++ fmtPct observed_ratio ++
          "/" ++ fmtPct (1 - observed_ratio) ++
          ") is consistent with expected (" ++ fmtPct expected_ratio ++
          "/" ++ fmtPct (1 - expected_ratio) ++ ")."
    ⟨pval < alpha, pval, expected_ratio, observed_ratio, control_n,
      treatment_n, message⟩

/-- `get_variant_sample_sizes` from metrics.py: distinct (non-null) user
count per (non-null) variant over exposure events. -/
def get_variant_sample_sizes (rows : List EventRow) : List (String × ℕ) :=
  let exposure := rows.filter (fun r => decide (r.event_type = some "exposure"))
  let variants := (exposure.filterMap (fun r => r.variant_name)).dedup
  variants.map (fun v =>
    (v, ((exposure.filter (fun r => decide (r.variant_name = some v))).filterMap
      (fun r => r.user_id)).dedup.length))

/-- Dictionary lookup `sizes.get(name)` on the association list. -/
def sizesLookup (sizes : List (String × ℕ)) (k : String) : Option ℕ :=
  (sizes.find? (fun p => decide (p.1 = k))).map (fun p => p.2)

/-- Python `str(...)` of a list of strings, e.g. `['event_type']`. -/
def pyStrListRepr (l : List String) : String :=
  "[" ++ String.intercalate ", " (l.map (fun s => "\x27" ++ s ++ "\x27")) ++ "]"

/-- `validate_experiment_data` from metrics.py: missing required columns
are fatal (immediate return, no further checks); then empty-table check;
then per-variant presence/size, null counts in `user_id`/`variant_name`,
and SRM, all accumulated into the issue list. -/
noncomputable def validate_experiment_data (events : EventsTable)
    (required_columns : Option (List String)) (min_sample_size : ℕ)
    (control_name treatment_name : String)
    (pvalOf : ℤ → ℤ → ℝ) (fmtPct fmt4 : ℝ → String) : Bool × List String :=
  let required := required_columns.getD
    ["user_id", "variant_name", "event_type", "event_timestamp"]
  let missing_cols := required.filter (fun c => decide (¬ c ∈ events.columns))
  if missing_cols ≠ [] then
    (false, ["Missing required columns: " ++ pyStrListRepr missing_cols])
  else if events.rows.length = 0 then (false, ["No events in dataset"])
  else
    let sizes := get_variant_sample_sizes events.rows
    let control_issue : List String :=
      match sizesLookup sizes control_name with
      | none => ["Control variant \x27" ++ control_name ++ "\x27 not found"]
      | some k =>
        if k < min_sample_size then
          ["Control sample size (" ++ toString k ++ ") below minimum (" ++
            toString min_sample_size ++ ")"]
        else []
    let treatment_issue : List String :=
      match sizesLookup sizes treatment_name with
      | none => ["Treatment variant \x27" ++ treatment_name ++ "\x27 not found"]
      | some k =>
        if k < min_sample_size then
          ["Treatment sample size (" ++ toString k ++ ") below minimum (" ++
            toString min_sample_size ++ ")"]
        else []
    let user_null := (events.rows.filter (fun r => decide (r.user_id = none))).length
    let user_null_issue : List String :=
      if 0 < user_null then
        ["Column \x27user_id\x27 has " ++ toString user_null ++ " null values"]
      else []
    let variant_null := (events.rows.filter
      (fun r => decide (r.variant_name = none))).length
    let variant_null_issue : List String :=
      if 0 < variant_null then
        ["Column \x27variant_name\x27 has " ++ toString variant_null ++
          " null values"]
      else []
    let srm_issue : List String :=
      match sizesLookup sizes control_name, sizesLookup sizes treatment_name with
      | some cn, some tn =>
        let srm := detect_sample_ratio_mismatch (cn : ℤ) (tn : ℤ) (1 / 2)
          (1 / 100) (pvalOf (cn : ℤ) (tn : ℤ)) fmtPct
        if srm.is_srm_detected then
          ["Sample Ratio Mismatch detected (p=" ++ fmt4 srm.p_value ++ ")"]
        else []
      | _, _ => []
    let issues := control_issue ++ treatment_issue ++ user_null_issue ++
      variant_null_issue ++ srm_issue
    (issues.isEmpty, issues)

/-! ## Claim C9 -/

/-- C9: `detect_sample_ratio_mismatch` with `control_n + treatment_n = 0`
returns `is_srm_detected = False`, `p_value = 1` (and raises nothing —
the function is total); for every positive total it flags SRM exactly
when the externally computed chi-square p-value is strictly below
`alpha`. -/
theorem srm_detection_spec :
    (∀ (cn tn : ℤ) (er al pval : ℝ) (fmt : ℝ → String), cn + tn = 0 →
      detect_sample_ratio_mismatch cn tn er al pval fmt =
        ⟨False, 1, er, 0, cn, tn, "No samples to analyze"⟩) ∧
    (∀ (cn tn : ℤ) (er al pval : ℝ) (fmt : ℝ → String), 0 < cn + tn →
      ((detect_sample_ratio_mismatch cn tn er al pval fmt).is_srm_detected ↔
        pval < al) ∧
      (detect_sample_ratio_mismatch cn tn er al pval fmt).p_value = pval) := by
  constructor
  · intro cn tn er al pval fmt h
    rw [detect_sample_ratio_mismatch, if_pos h]
  · intro cn tn er al pval fmt h
    rw [detect_sample_ratio_mismatch, if_neg (by omega)]
    exact ⟨Iff.rfl, rfl⟩

/-- C9 witness: the degenerate call at `(0, 0)` and a positive-total call
at `(50000, 50000)`. -/
theorem srm_detection_spec_witness :
    detect_sample_ratio_mismatch 0 0 (1 / 2) (1 / 100) (1 / 2)
        (fun _ => "") =
      ⟨False, 1, 1 / 2, 0, 0, 0, "No samples to analyze"⟩ ∧
    (((detect_sample_ratio_mismatch 50000 50000 (1 / 2) (1 / 100) (1 / 2)
        (fun _ => "")).is_srm_detected ↔ (1 / 2 : ℝ) < 1 / 100) ∧
      (detect_sample_ratio_mismatch 50000 50000 (1 / 2) (1 / 100) (1 / 2)
        (fun _ => "")).p_value = 1 / 2) :=
  ⟨srm_detection_spec.1 0 0 (1 / 2) (1 / 100) (1 / 2) (fun _ => "") rfl,
   srm_detection_spec.2 50000 50000 (1 / 2) (1 / 100) (1 / 2) (fun _ => "")
     (by decide)⟩

/-! ## Claim C7 -/

/-- C7: on a table whose columns contain the other three default required
columns but not `event_type`, `validate_experiment_data` returns exactly
`(False, ["Missing required columns: ['event_type']"])` — for every row
content, minimum sample size, variant naming and external
p-value/formatter, i.e. none of the subsequent checks contributes. -/
theorem validate_missing_event_type_short_circuits
    (events : EventsTable) (mss : ℕ) (cname tname : String)
    (pvalOf : ℤ → ℤ → ℝ) (fmtPct fmt4 : ℝ → String)
    (h1 : "user_id" ∈ events.columns) (h2 : "variant_name" ∈ events.columns)
    (h3 : ¬ "event_type" ∈ events.columns)
    (h4 : "event_timestamp" ∈ events.columns) :
    validate_experiment_data events none mss cname tname pvalOf fmtPct fmt4 =
      (false, ["Missing required columns: [\x27event_type\x27]"]) := by
  rw [validate_experiment_data]
  have hm : (["user_id", "variant_name", "event_type",
      "event_timestamp"].filter (fun c => decide (¬ c ∈ events.columns))) =
      ["event_type"] := by
    simp [List.filter, h1, h2, h3, h4]
  simp only [Option.getD, hm]
  rw [if_pos (by simp)]
  rfl

/-- C7 witness: a concrete three-column table. -/
theorem validate_missing_event_type_short_circuits_witness :
    validate_experiment_data
        ⟨["user_id", "variant_name", "event_timestamp"], []⟩ none 100
        "control" "treatment" (fun _ _ => 0) (fun _ => "") (fun _ => "") =
      (false, ["Missing required columns: [\x27event_type\x27]"]) :=
  validate_missing_event_type_short_circuits
    ⟨["user_id", "variant_name", "event_timestamp"], []⟩ 100 "control"
    "treatment" (fun _ _ => 0) (fun _ => "") (fun _ => "")
    (by decide) (by decide) (by decide) (by decide)

end ABTesting
